import Mathlib

/-!
# Verification of the stichfest-bot scoring core

Shallow embedding of the scoring and finalization logic of `src/main.py`
(a Doppelkopf score-keeping Telegram bot backed by a Google Sheet):

* `calculate_points` — the pure scoring function (main.py, `calculate_points`);
* `get_bock_count` / `set_bock_count` — persistence helpers for the
  bock-round counter stored in a spreadsheet cell;
* `handle_final_score` — the finalization step (`extra_done` callback) that
  reads the counter, validates the team, scores the round, updates the
  counter and appends the row to today's worksheet;
* `toggle_re` / `confirm_offered` — the Team-Re selection toggles;
* `handle_winner_selection` / `handle_announcement_done` — session-state
  updates along the conversational flow;
* `cmd_undo` — deletion of the last row of today's worksheet.

Python dictionaries keyed by player names are modelled as association
lists with Python-dict update semantics (`dictSet`), machine integers
as `Int` (Python ints are unbounded, so no wrap-around is modelled),
fallible code returns `Except String`.
-/

/-- The scoring-rule set read from the "Rules" worksheet
(`get_rules` in main.py).  `calculate_points` only consults
`BasePoint` (default 1) and `SoloMultiplier` (default 3); a `none`
field models an absent key, resolved by `rules.get(key, default)`. -/
structure Rules where
  BasePoint : Option Int
  SoloMultiplier : Option Int
deriving DecidableEq

/-- The aiogram FSM session data accumulated for one round
(the `game_data` dict passed to `calculate_points`).  `none` models a
key that is absent from the dict (accessing it raises `KeyError`);
`announcements` and `extra_points` are read with `.get(key, [])`, so an
absent key behaves exactly like the empty list and both are modelled as
plain lists. -/
structure GameData where
  type_ : Option String
  winner_team : Option String
  re_players : Option (List String)
  soloist : Option String
  announcements : List String
  extra_points : List String
deriving DecidableEq

/-- Python-dict single-key update on an association list: overwrite the
value if the key is present, append the pair otherwise
(`scores[p] = v`). -/
def dictSet (d : List (String × Int)) (k : String) (v : Int) :
    List (String × Int) :=
  if k ∈ d.map Prod.fst then
    d.map (fun kv => if kv.1 = k then (kv.1, v) else kv)
  else d ++ [(k, v)]

/-- The dict comprehension `{p: 0 for p in players}`. -/
def dictInit (players : List String) : List (String × Int) :=
  players.foldl (fun d p => dictSet d p 0) []

/-- `for p in ps: scores[p] = v`. -/
def dictSetAll (d : List (String × Int)) (ps : List String) (v : Int) :
    List (String × Int) :=
  ps.foldl (fun d p => dictSet d p v) d

/-- `scores[p]` (always present when `p` is a roster player). -/
def dictGet (d : List (String × Int)) (k : String) : Int :=
  (d.lookup k).getD 0

/-- `sum(scores.values())`. -/
def sumValues (d : List (String × Int)) : Int :=
  (d.map Prod.snd).sum

/-- `sum([s for s in scores.values() if s > 0])` (the "Punkte" column
of a ledger row in `handle_final_score`). -/
def posSum (d : List (String × Int)) : Int :=
  ((d.map Prod.snd).filter (fun s => decide (0 < s))).sum

/-- The round-point computation at the top of `calculate_points`
(main.py lines 90-106): base points from the rules, doubling per
announcement, one extra point per special tag except the trigger tag
"Herz-Rundlauf" (removed by `extras.remove`, i.e. first occurrence),
doubled once more for a bock round. -/
def round_points_of (announcements extra_points : List String) (rules : Rules)
    (is_bock : Bool) : Int :=
  let base := rules.BasePoint.getD 1
  let multiplier : Int := 2 ^ announcements.length
  let extras := extra_points.erase "Herz-Rundlauf"
  let extra_val : Int := extras.length
  let round_points := (base + extra_val) * multiplier
  if is_bock then round_points * 2 else round_points

/-- `calculate_points(game_data, rules, players, is_bock)`
(main.py lines 89-133).  A missing dict key raises `KeyError` in
Python; this is modelled as an `Except.error`.  Note that the function
itself never checks the size of `re_players`; an unrecognized game type
falls through and returns the all-zero initial dict. -/
def calculate_points (game_data : GameData) (rules : Rules)
    (players : List String) (is_bock : Bool) :
    Except String (List (String × Int)) :=
  let round_points :=
    round_points_of game_data.announcements game_data.extra_points rules is_bock
  let scores := dictInit players
  match game_data.type_ with
  | none => .error "KeyError: type"
  | some t =>
    if t = "Normal" then
      match game_data.re_players with
      | none => .error "KeyError: re_players"
      | some re_team =>
        let kontra_team := players.filter (fun p => decide (p ∉ re_team))
        match game_data.winner_team with
        | none => .error "KeyError: winner_team"
        | some w =>
          if w = "Re" then
            .ok (dictSetAll (dictSetAll scores re_team round_points)
                  kontra_team (-round_points))
          else
            .ok (dictSetAll (dictSetAll scores re_team (-round_points))
                  kontra_team round_points)
    else if t = "Solo" then
      match game_data.soloist with
      | none => .error "KeyError: soloist"
      | some soloist =>
        let others := players.filter (fun p => decide (p ≠ soloist))
        match game_data.winner_team with
        | none => .error "KeyError: winner_team"
        | some w =>
          let solo_mult := rules.SoloMultiplier.getD 3
          if w = "Soloist" then
            .ok (dictSetAll (dictSet scores soloist (round_points * solo_mult))
                  others (-round_points))
          else
            .ok (dictSetAll (dictSet scores soloist (-(round_points * solo_mult)))
                  others round_points)
    else
      .ok scores

/-- The two persistent stores touched by finalization: the bock counter
cell (`Dashboard!B7`, a spreadsheet cell holding a string or empty) and
today's worksheet (list of rows, the first row being the header). -/
structure Store where
  bock : Option String
  ledger : List (List String)
deriving DecidableEq

/-- Decimal reading of an all-digit string, the `int(val)` of
`get_bock_count` (leading zeros allowed, as in Python). -/
def strToNat (cs : List Char) : Nat :=
  cs.foldl (fun n c => n * 10 + (c.toNat - '0'.toNat)) 0

/-- `get_bock_count` (main.py lines 140-147):
`int(val) if val and val.isdigit() else 0` — a missing cell, the empty
string or a string with a non-digit character (this model checks ASCII
digits) reads as 0; any read failure also yields 0 via the bare
`except`. -/
def get_bock_count (cell : Option String) : Int :=
  match cell with
  | none => 0
  | some val =>
    if !val.data.isEmpty && val.data.all Char.isDigit then (strToNat val.data : Int)
    else 0

/-- `set_bock_count` (main.py lines 149-155): writes the counter into
the cell; the body is wrapped in `try ... except: pass`, so a store
failure is swallowed and leaves the cell unchanged. -/
def set_bock_count (st : Store) (fail : Bool) (count : Int) : Store :=
  if fail then st else { st with bock := some (toString count) }

/-- The bock-counter arithmetic of `handle_final_score`
(main.py lines 595-598): start from the current value, subtract 1 if
this round consumed a bock round, add 4 if the trigger tag is among the
round's special events. -/
def bock_update (current_bock : Int) (extra_points : List String) : Int :=
  let new_bock := current_bock
  let new_bock := if current_bock > 0 then new_bock - 1 else new_bock
  if "Herz-Rundlauf" ∈ extra_points then new_bock + 4 else new_bock

/-- The `extra_done` callback `handle_final_score`
(main.py lines 568-646), restricted to its effect on the two persistent
stores and its reported outcome.  `now` stands for the wall-clock
timestamp put into the row.  `failSetBock` / `failAppend` model a
persistence failure of the counter write resp. of the worksheet append
(`set_bock_count` swallows its failure; an append failure raises and is
caught by the surrounding `except`, which reports the error).  The
`Bool` in the success payload is `is_bock_round`, displayed as the
"BOCKRUNDE" marker in the summary message.  In every path the aiogram
session state is cleared afterwards (`state.clear()` runs both in the
early-return branch and after the `try/except`). -/
def handle_final_score (st : Store) (data : GameData) (players : List String)
    (rules : Rules) (now : String) (failSetBock failAppend : Bool) :
    Store × Except String (List (String × Int) × Bool) :=
  let current_bock := get_bock_count st.bock
  let is_bock_round : Bool := decide (current_bock > 0)
  match data.type_ with
  | none => (st, .error "KeyError: type")
  | some t =>
    if t = "Normal" ∧ (data.re_players = none ∨ (data.re_players.getD []).length ≠ 2) then
      (st, .error "Fehler: Team Re wurde nicht korrekt festgelegt.")
    else
      match calculate_points data rules players is_bock_round with
      | .error e => (st, .error e)
      | .ok scores =>
        let new_bock := bock_update current_bock data.extra_points
        let st1 := if new_bock ≠ current_bock
          then set_bock_count st failSetBock new_bock else st
        match data.winner_team with
        | none => (st1, .error "KeyError: winner_team")
        | some w =>
          if failAppend then (st1, .error "append failed")
          else
            let row := [now, t, w, toString (posSum scores)]
              ++ players.map (fun p => toString (dictGet scores p))
            ({ st1 with ledger := st1.ledger ++ [row] }, .ok (scores, is_bock_round))

/-- One Team-Re toggle (`handle_re_selection`, main.py lines 464-476):
tapping a selected player removes them (`list.remove`, first
occurrence), tapping an unselected one appends them only while fewer
than 2 are selected, otherwise the tap is ignored. -/
def toggle_re (re_players : List String) (p_selected : String) : List String :=
  if p_selected ∈ re_players then re_players.erase p_selected
  else if re_players.length < 2 then re_players ++ [p_selected]
  else re_players

/-- The confirm button is added to the keyboard iff exactly two players
are selected (main.py lines 483-484). -/
def confirm_offered (re_players : List String) : Bool :=
  re_players.length == 2

/-- `handle_winner_selection` (main.py lines 509-512):
`state.update_data(winner_team=winner, announcements=[])` — it stores
the winner and resets the announcements accumulator; `extra_points` is
left untouched. -/
def handle_winner_selection (data : GameData) (winner : String) : GameData :=
  { data with winner_team := some winner, announcements := [] }

/-- `handle_announcement_done` (main.py lines 539-541):
`state.update_data(extra_points=[])` — entering special-event
collection resets the extras accumulator. -/
def handle_announcement_done (data : GameData) : GameData :=
  { data with extra_points := [] }

/-- `cmd_undo` (main.py lines 677-701) on today's worksheet: with at
most the header row present it reports "nothing to undo" and changes
nothing; otherwise `worksheet.delete_rows(len(rows))` deletes exactly
the last row.  The bock counter cell is never touched.  The returned
`Bool` records whether a row was deleted. -/
def cmd_undo (st : Store) : Store × Bool :=
  if st.ledger.length ≤ 1 then (st, false)
  else ({ st with ledger := st.ledger.dropLast }, true)

/-! ## Association-list (Python dict) lemmas -/

theorem dictSet_of_mem {d : List (String × Int)} {k : String} (v : Int)
    (h : k ∈ d.map Prod.fst) :
    dictSet d k v = d.map (fun kv => if kv.1 = k then (kv.1, v) else kv) := by
  simp [dictSet, h]

theorem dictSetAll_eq_map (ps : List String) :
    ∀ (d : List (String × Int)) (v : Int),
      (∀ p ∈ ps, p ∈ d.map Prod.fst) →
      dictSetAll d ps v
        = d.map (fun kv => if kv.1 ∈ ps then (kv.1, v) else kv) := by
  induction ps with
  | nil =>
    intro d v _
    simp [dictSetAll]
  | cons a ps ih =>
    intro d v h
    have ha : a ∈ d.map Prod.fst := h a (by simp)
    have step : dictSetAll d (a :: ps) v = dictSetAll (dictSet d a v) ps v := rfl
    rw [step, dictSet_of_mem v ha]
    have hfst : (d.map (fun kv => if kv.1 = a then (kv.1, v) else kv)).map Prod.fst
        = d.map Prod.fst := by
      rw [List.map_map]
      apply List.map_congr_left
      intro kv _
      by_cases hk : kv.1 = a <;> simp [hk]
    rw [ih _ v (by rw [hfst]; intro p hp; exact h p (by simp [hp]))]
    rw [List.map_map]
    apply List.map_congr_left
    intro kv _
    by_cases hk : kv.1 = a <;> by_cases hk2 : kv.1 ∈ ps <;>
      simp [hk, hk2, Function.comp]

theorem foldl_dictSet_zero (players : List String) :
    ∀ d : List (String × Int), players.Nodup →
      (∀ p ∈ players, p ∉ d.map Prod.fst) →
      players.foldl (fun d p => dictSet d p 0) d
        = d ++ players.map (fun p => (p, 0)) := by
  induction players with
  | nil =>
    intro d _ _
    simp
  | cons a ps ih =>
    intro d hnd h
    have ha : a ∉ d.map Prod.fst := h a (by simp)
    have hset : dictSet d a 0 = d ++ [(a, 0)] := by simp [dictSet, ha]
    have hnd' := (List.nodup_cons.mp hnd).2
    have hane := (List.nodup_cons.mp hnd).1
    rw [List.foldl_cons, hset, ih (d ++ [(a, 0)]) hnd']
    · simp
    · intro p hp
      have hpa : p ≠ a := fun hc => hane (hc ▸ hp)
      simp only [List.map_append, List.mem_append, List.map_cons, List.map_nil,
        List.mem_singleton]
      rintro (hc | hc)
      · exact h p (by simp [hp]) hc
      · exact hpa hc

theorem dictInit_eq {players : List String} (hnd : players.Nodup) :
    dictInit players = players.map (fun p => (p, 0)) := by
  simpa using foldl_dictSet_zero players [] hnd (by simp)

theorem sumValues_map (players : List String) (f : String → Int) :
    sumValues (players.map (fun p => (p, f p))) = (players.map f).sum := by
  simp [sumValues, List.map_map, Function.comp_def]

theorem sum_map_ite (players re : List String) (a b : Int) :
    (players.map (fun p => if p ∈ re then a else b)).sum
      = (players.countP (fun p => decide (p ∈ re)) : Int) * a
        + ((players.length : Int)
            - (players.countP (fun p => decide (p ∈ re)) : Int)) * b := by
  induction players with
  | nil => simp
  | cons q ps ih =>
    by_cases hq : q ∈ re
    · simp [List.countP_cons, hq, ih]
      ring
    · simp [List.countP_cons, hq, ih]
      ring

theorem countP_mem_eq_length {players re : List String}
    (hnd : players.Nodup) (hre : re.Nodup) (hsub : re ⊆ players) :
    players.countP (fun p => decide (p ∈ re)) = re.length := by
  rw [List.countP_eq_length_filter]
  have hperm : List.Perm (players.filter (fun p => decide (p ∈ re))) re := by
    rw [List.perm_ext_iff_of_nodup (hnd.filter _) hre]
    intro a
    simp only [List.mem_filter, decide_eq_true_eq]
    exact ⟨fun h => h.2, fun h => ⟨hsub h, h⟩⟩
  exact hperm.length_eq

/-! ## Closed forms for the two scoring branches -/

theorem calculate_points_normal (players re : List String) (w : String)
    (so : Option String) (anns extras : List String) (rules : Rules) (bock : Bool)
    (hnd : players.Nodup) (hsub : re ⊆ players) :
    calculate_points ⟨some "Normal", some w, some re, so, anns, extras⟩
        rules players bock
      = .ok (players.map (fun p =>
          (p, if p ∈ re
            then (if w = "Re" then round_points_of anns extras rules bock
                  else -round_points_of anns extras rules bock)
            else (if w = "Re" then -round_points_of anns extras rules bock
                  else round_points_of anns extras rules bock)))) := by
  set rp := round_points_of anns extras rules bock with hrp
  have hinit : dictInit players = players.map (fun p => (p, 0)) := dictInit_eq hnd
  have hkeys : (players.map (fun p => (p, (0 : Int)))).map Prod.fst = players := by
    simp [List.map_map, Function.comp_def]
  have main : ∀ v1 v2 : Int,
      dictSetAll (dictSetAll (dictInit players) re v1)
          (players.filter (fun p => decide (p ∉ re))) v2
        = players.map (fun p => (p, if p ∈ re then v1 else v2)) := by
    intro v1 v2
    rw [hinit, dictSetAll_eq_map re _ v1 (by rw [hkeys]; exact fun p hp => hsub hp)]
    rw [List.map_map]
    have hkeys2 :
        (players.map ((fun kv : String × Int => if kv.1 ∈ re then (kv.1, v1) else kv)
            ∘ fun p => (p, (0 : Int)))).map Prod.fst = players := by
      rw [List.map_map]
      have : (Prod.fst ∘ ((fun kv : String × Int =>
          if kv.1 ∈ re then (kv.1, v1) else kv) ∘ fun p => (p, (0 : Int))))
          = fun p => p := by
        funext p
        by_cases hp : p ∈ re <;> simp [hp, Function.comp_def]
      rw [this]
      simp
    rw [dictSetAll_eq_map _ _ v2
      (by rw [hkeys2]; exact fun p hp => (List.mem_filter.mp hp).1)]
    rw [List.map_map]
    apply List.map_congr_left
    intro p hp
    by_cases hre : p ∈ re <;>
      simp [Function.comp_def, List.mem_filter, hre, hp]
  by_cases hw : w = "Re"
  · subst hw
    simp only [calculate_points, String.reduceEq, reduceIte]
    rw [main rp (-rp)]
  · simp only [calculate_points, String.reduceEq, reduceIte, if_neg hw]
    rw [main (-rp) rp]

theorem calculate_points_solo (players : List String) (soloist w : String)
    (re : Option (List String)) (anns extras : List String) (rules : Rules)
    (bock : Bool) (hnd : players.Nodup) (hmem : soloist ∈ players) :
    calculate_points ⟨some "Solo", some w, re, some soloist, anns, extras⟩
        rules players bock
      = .ok (players.map (fun p =>
          (p, if p = soloist
            then (if w = "Soloist"
              then round_points_of anns extras rules bock
                    * rules.SoloMultiplier.getD 3
              else -(round_points_of anns extras rules bock
                    * rules.SoloMultiplier.getD 3))
            else (if w = "Soloist" then -round_points_of anns extras rules bock
                  else round_points_of anns extras rules bock)))) := by
  set rp := round_points_of anns extras rules bock with hrp
  set sm := rules.SoloMultiplier.getD 3 with hsm
  have hinit : dictInit players = players.map (fun p => (p, 0)) := dictInit_eq hnd
  have hkeys : (players.map (fun p => (p, (0 : Int)))).map Prod.fst = players := by
    simp [List.map_map, Function.comp_def]
  have main : ∀ v1 v2 : Int,
      dictSetAll (dictSet (dictInit players) soloist v1)
          (players.filter (fun p => decide (p ≠ soloist))) v2
        = players.map (fun p => (p, if p = soloist then v1 else v2)) := by
    intro v1 v2
    rw [hinit, dictSet_of_mem v1 (by rw [hkeys]; exact hmem)]
    rw [List.map_map]
    have hkeys2 :
        (players.map ((fun kv : String × Int => if kv.1 = soloist then (kv.1, v1) else kv)
            ∘ fun p => (p, (0 : Int)))).map Prod.fst = players := by
      rw [List.map_map]
      have : (Prod.fst ∘ ((fun kv : String × Int =>
          if kv.1 = soloist then (kv.1, v1) else kv) ∘ fun p => (p, (0 : Int))))
          = fun p => p := by
        funext p
        by_cases hp : p = soloist <;> simp [hp, Function.comp_def]
      rw [this]
      simp
    rw [dictSetAll_eq_map _ _ v2
      (by rw [hkeys2]; exact fun p hp => (List.mem_filter.mp hp).1)]
    rw [List.map_map]
    apply List.map_congr_left
    intro p hp
    by_cases hso : p = soloist <;>
      simp [Function.comp_def, List.mem_filter, hso, hp]
  by_cases hw : w = "Soloist"
  · subst hw
    simp only [calculate_points, String.reduceEq, reduceIte]
    rw [main (rp * sm) (-rp)]
  · simp only [calculate_points, String.reduceEq, reduceIte, if_neg hw]
    rw [main (-(rp * sm)) rp]

/-! ## Claim C1 -/

/-- C1 counterexample: a complete Team-variant round on the 5-player roster
[A,B,C,D,E] with team [A,B] winning, default rules, no announcements, no
special events and no bonus flag yields deltas {A:1, B:1, C:-1, D:-1, E:-1},
whose sum is -1, not 0: the claimed zero-sum fails for 5-player rosters. -/
theorem C1_counterexample :
    ((calculate_points ⟨some "Normal", some "Re", some ["A", "B"], none, [], []⟩
        ⟨none, none⟩ ["A", "B", "C", "D", "E"] false).toOption.map sumValues)
      = some (-1)
    ∧ ((calculate_points ⟨some "Normal", some "Re", some ["A", "B"], none, [], []⟩
        ⟨none, none⟩ ["A", "B", "C", "D", "E"] false).toOption.map sumValues)
      ≠ some 0 := by
  constructor
  · decide
  · decide

/-- C1 (amended): for every complete Team-variant round (two distinct roster
players as Team Re), every RuleSet, every 4- or 5-player duplicate-free
roster and either bonus flag, the per-player deltas of `calculate_points`
sum to sign * roundPoints * (4 - N): zero exactly on 4-player rosters and
∓roundPoints on 5-player rosters. -/
theorem C1_team_delta_sum (players re : List String) (w : String)
    (so : Option String) (anns extras : List String) (rules : Rules) (bock : Bool)
    (hnd : players.Nodup) (hre : re.Nodup) (hsub : re ⊆ players)
    (hlen : re.length = 2) (_hN : players.length = 4 ∨ players.length = 5) :
    ∃ scores,
      calculate_points ⟨some "Normal", some w, some re, so, anns, extras⟩
          rules players bock = .ok scores
      ∧ sumValues scores
          = (if w = "Re" then 1 else -1) * round_points_of anns extras rules bock
            * (4 - (players.length : Int)) := by
  refine ⟨_, calculate_points_normal players re w so anns extras rules bock hnd hsub,
    ?_⟩
  rw [sumValues_map]
  set rp := round_points_of anns extras rules bock with hrp
  have hcount := countP_mem_eq_length hnd hre hsub
  by_cases hw : w = "Re"
  · simp only [hw, eq_self_iff_true, if_true]
    rw [sum_map_ite players re rp (-rp), hcount, hlen]
    push_cast
    ring
  · simp only [if_neg hw]
    rw [sum_map_ite players re (-rp) rp, hcount, hlen]
    push_cast
    ring

/-- C1 witness: concrete instance of the amended sum formula on the 5-player
roster [A,B,C,D,E] with Team Re = [A,B] winning and default rules. -/
theorem C1_team_delta_sum_witness :
    (["A", "B", "C", "D", "E"] : List String).Nodup
    ∧ (["A", "B"] : List String).Nodup
    ∧ (["A", "B"] : List String) ⊆ ["A", "B", "C", "D", "E"]
    ∧ (["A", "B"] : List String).length = 2
    ∧ ((["A", "B", "C", "D", "E"] : List String).length = 4
        ∨ (["A", "B", "C", "D", "E"] : List String).length = 5)
    ∧ ∃ scores,
        calculate_points ⟨some "Normal", some "Re", some ["A", "B"], none, [], []⟩
            ⟨none, none⟩ ["A", "B", "C", "D", "E"] false = .ok scores
        ∧ sumValues scores
            = (if "Re" = "Re" then 1 else -1) * round_points_of [] [] ⟨none, none⟩ false
              * (4 - (((["A", "B", "C", "D", "E"] : List String).length : Nat) : Int)) :=
  ⟨by decide, by decide, by decide, by decide, by decide,
    C1_team_delta_sum ["A", "B", "C", "D", "E"] ["A", "B"] "Re" none [] []
      ⟨none, none⟩ false (by decide) (by decide) (by decide) (by decide)
      (by decide)⟩

/-! ## Claim C2 -/

/-- C2: the scorer computes
roundPoints = (BasePoint + |specialEvents without the trigger tag
"Herz-Rundlauf"|) * 2^|announcements|, doubled once more when the bonus flag
is set; and on roster [A,B,C,D] with BasePoint 1, Team round with team [A,B]
winning, 1 announcement, 2 non-trigger special tags and no bonus the result
is roundPoints 6 with deltas {A:6, B:6, C:-6, D:-6}. -/
theorem C2_round_points (anns extras : List String) (rules : Rules) (bock : Bool)
    (hnd : extras.Nodup) :
    round_points_of anns extras rules bock
      = (rules.BasePoint.getD 1
          + ((extras.filter (fun e => decide (e ≠ "Herz-Rundlauf"))).length : Int))
        * 2 ^ anns.length * (if bock then 2 else 1)
    ∧ (calculate_points
        ⟨some "Normal", some "Re", some ["A", "B"], none, ["Re"], ["Fuchs", "Karlchen"]⟩
        ⟨some 1, some 3⟩ ["A", "B", "C", "D"] false).toOption
      = some [("A", 6), ("B", 6), ("C", -6), ("D", -6)] := by
  constructor
  · have hpt : ∀ e : String,
        (e != "Herz-Rundlauf") = decide (e ≠ "Herz-Rundlauf") := by
      intro e
      by_cases h : e = "Herz-Rundlauf" <;> simp [h]
    have herase : extras.erase "Herz-Rundlauf"
        = extras.filter (fun e => decide (e ≠ "Herz-Rundlauf")) := by
      rw [List.Nodup.erase_eq_filter hnd]
      exact List.filter_congr (fun e _ => hpt e)
    simp only [round_points_of, herase]
    cases bock <;> simp
  · decide

/-- C2 witness: the formula at a concrete instance (1 announcement, one
non-trigger tag plus the trigger tag, bonus flag set, BasePoint 2). -/
theorem C2_round_points_witness :
    (["Fuchs", "Herz-Rundlauf"] : List String).Nodup
    ∧ (round_points_of ["Re"] ["Fuchs", "Herz-Rundlauf"] ⟨some 2, none⟩ true
        = ((⟨some 2, none⟩ : Rules).BasePoint.getD 1
            + (((["Fuchs", "Herz-Rundlauf"] : List String).filter
                (fun e => decide (e ≠ "Herz-Rundlauf"))).length : Int))
          * 2 ^ (["Re"] : List String).length * (if true then 2 else 1)
      ∧ (calculate_points
          ⟨some "Normal", some "Re", some ["A", "B"], none, ["Re"], ["Fuchs", "Karlchen"]⟩
          ⟨some 1, some 3⟩ ["A", "B", "C", "D"] false).toOption
        = some [("A", 6), ("B", 6), ("C", -6), ("D", -6)]) :=
  ⟨by decide,
    C2_round_points ["Re"] ["Fuchs", "Herz-Rundlauf"] ⟨some 2, none⟩ true (by decide)⟩

/-! ## Claim C3 -/

theorem get_bock_count_nonneg (cell : Option String) : 0 ≤ get_bock_count cell := by
  cases cell with
  | none => simp [get_bock_count]
  | some v =>
    simp only [get_bock_count]
    split_ifs <;> simp

/-- C3: for every finalized round, writing `c` for the persisted counter
value read by `get_bock_count` (always non-negative): if `c` was positive it
is decremented by exactly one (plus the trigger bonus), and the round is
scored as a bonus round (the flag in a successful finalization result is
exactly `0 < c`); if `c` was zero, consumption leaves it unchanged; the
trigger tag "Herz-Rundlauf" adds exactly 4; both effects compose in one
round; the counter drops by at most one and never becomes negative. -/
theorem C3_bock_counter (cell : Option String) (extras : List String)
    (st : Store) (data : GameData) (players : List String) (rules : Rules)
    (now : String) (fsb fa : Bool) :
    0 ≤ get_bock_count cell
    ∧ (0 < get_bock_count cell →
        bock_update (get_bock_count cell) extras
          = get_bock_count cell - 1
            + (if "Herz-Rundlauf" ∈ extras then 4 else 0))
    ∧ (get_bock_count cell = 0 →
        bock_update (get_bock_count cell) extras
          = (if "Herz-Rundlauf" ∈ extras then 4 else 0))
    ∧ 0 ≤ bock_update (get_bock_count cell) extras
    ∧ get_bock_count cell - 1 ≤ bock_update (get_bock_count cell) extras
    ∧ (∀ scores flag,
        (handle_final_score st data players rules now fsb fa).2
            = .ok (scores, flag) →
        flag = decide (0 < get_bock_count st.bock)) := by
  have hpos := get_bock_count_nonneg cell
  refine ⟨hpos, ?_, ?_, ?_, ?_, ?_⟩
  · intro hc
    simp only [bock_update]
    split_ifs <;> omega
  · intro hc
    simp only [bock_update]
    split_ifs <;> omega
  · simp only [bock_update]
    split_ifs <;> omega
  · simp only [bock_update]
    split_ifs <;> omega
  · intro scores flag h
    obtain ⟨ty, wt, rp, so, anns, ex⟩ := data
    cases ty with
    | none => simp [handle_final_score] at h
    | some t =>
      simp only [handle_final_score] at h
      by_cases hval : t = "Normal" ∧ (rp = none ∨ (rp.getD []).length ≠ 2)
      · rw [if_pos hval] at h
        simp at h
      · rw [if_neg hval] at h
        cases hcp : calculate_points ⟨some t, wt, rp, so, anns, ex⟩ rules players
            (decide (0 < get_bock_count st.bock)) with
        | error e =>
          rw [hcp] at h
          simp at h
        | ok sc =>
          rw [hcp] at h
          cases wt with
          | none => simp at h
          | some w =>
            cases fa with
            | true => simp at h
            | false =>
              simp at h
              exact h.2.symm

/-- C3 witness: counter cell "2", trigger tag present: consumption plus
trigger give 2 - 1 + 4 = 5, and a successful concrete finalization reports
the bonus flag read from its own store. -/
theorem C3_bock_counter_witness :
    0 < get_bock_count (some "2")
    ∧ bock_update (get_bock_count (some "2")) ["Herz-Rundlauf"]
        = get_bock_count (some "2") - 1
          + (if "Herz-Rundlauf" ∈ (["Herz-Rundlauf"] : List String) then 4 else 0)
    ∧ (handle_final_score ⟨some "2", [["h"]]⟩
          ⟨some "Normal", some "Re", some ["A", "B"], none, [], []⟩
          ["A", "B", "C", "D"] ⟨none, none⟩ "20:00:00" false false).2
        = .ok ([("A", 2), ("B", 2), ("C", -2), ("D", -2)], true)
    ∧ true = decide (0 < get_bock_count (Store.mk (some "2") [["h"]]).bock) :=
  ⟨by decide,
    (C3_bock_counter (some "2") ["Herz-Rundlauf"] ⟨some "2", [["h"]]⟩
        ⟨some "Normal", some "Re", some ["A", "B"], none, [], []⟩
        ["A", "B", "C", "D"] ⟨none, none⟩ "20:00:00" false false).2.1 (by decide),
    by rfl,
    (C3_bock_counter (some "2") ["Herz-Rundlauf"] ⟨some "2", [["h"]]⟩
        ⟨some "Normal", some "Re", some ["A", "B"], none, [], []⟩
        ["A", "B", "C", "D"] ⟨none, none⟩ "20:00:00" false false).2.2.2.2.2
      [("A", 2), ("B", 2), ("C", -2), ("D", -2)] true (by rfl)⟩

/-! ## Claim C4 -/

theorem st1_ledger (st : Store) (fsb : Bool) (n c : Int) :
    (if n ≠ c then set_bock_count st fsb n else st).ledger = st.ledger := by
  split_ifs with h
  · simp only [set_bock_count]
    split_ifs <;> rfl
  · rfl

theorem st1_bock_true (st : Store) (n c : Int) :
    (if n ≠ c then set_bock_count st true n else st).bock = st.bock := by
  split_ifs <;> rfl

/-- Case analysis of finalization: either it reports an error and today's
worksheet is unchanged, or the append succeeded (which requires the append
store not to fail) and the worksheet grew by exactly one row. -/
theorem handle_final_score_spec (st : Store) (data : GameData)
    (players : List String) (rules : Rules) (now : String) (fsb fa : Bool) :
    ((handle_final_score st data players rules now fsb fa).1.ledger = st.ledger
      ∧ ∃ e, (handle_final_score st data players rules now fsb fa).2 = .error e)
    ∨ (fa = false
      ∧ (handle_final_score st data players rules now fsb fa).1.ledger.length
          = st.ledger.length + 1
      ∧ ∃ pay, (handle_final_score st data players rules now fsb fa).2 = .ok pay) := by
  obtain ⟨ty, wt, rp, so, anns, ex⟩ := data
  cases ty with
  | none => exact Or.inl ⟨rfl, "KeyError: type", rfl⟩
  | some t =>
    by_cases hval : t = "Normal" ∧ (rp = none ∨ (rp.getD []).length ≠ 2)
    · refine Or.inl ?_
      simp only [handle_final_score]
      rw [if_pos hval]
      exact ⟨rfl, "Fehler: Team Re wurde nicht korrekt festgelegt.", rfl⟩
    · simp only [handle_final_score]
      rw [if_neg hval]
      cases hcp : calculate_points ⟨some t, wt, rp, so, anns, ex⟩ rules players
          (decide (0 < get_bock_count st.bock)) with
      | error e =>
        exact Or.inl ⟨rfl, e, rfl⟩
      | ok sc =>
        cases wt with
        | none =>
          exact Or.inl ⟨st1_ledger st fsb _ _, "KeyError: winner_team", rfl⟩
        | some w =>
          cases fa with
          | true => exact Or.inl ⟨st1_ledger st fsb _ _, "append failed", rfl⟩
          | false =>
            refine Or.inr ⟨rfl, ?_, (sc, decide (0 < get_bock_count st.bock)), rfl⟩
            have hl := st1_ledger st fsb
              (bock_update (get_bock_count st.bock) ex) (get_bock_count st.bock)
            simp only [Bool.false_eq_true, if_false, List.length_append, hl,
              List.length_cons, List.length_nil]

/-- When the bock-counter store fails, the counter cell is left unchanged
in every path of finalization (the failure is swallowed by
`set_bock_count`). -/
theorem handle_final_score_bock (st : Store) (data : GameData)
    (players : List String) (rules : Rules) (now : String) (fa : Bool) :
    (handle_final_score st data players rules now true fa).1.bock = st.bock := by
  obtain ⟨ty, wt, rp, so, anns, ex⟩ := data
  cases ty with
  | none => rfl
  | some t =>
    by_cases hval : t = "Normal" ∧ (rp = none ∨ (rp.getD []).length ≠ 2)
    · simp only [handle_final_score]
      rw [if_pos hval]
    · simp only [handle_final_score]
      rw [if_neg hval]
      cases hcp : calculate_points ⟨some t, wt, rp, so, anns, ex⟩ rules players
          (decide (0 < get_bock_count st.bock)) with
      | error e => rfl
      | ok sc =>
        cases wt with
        | none => exact st1_bock_true st _ _
        | some w =>
          cases fa with
          | true => exact st1_bock_true st _ _
          | false => exact st1_bock_true st _ _

/-- C4 counterexample: finalization is not atomic.  First scenario: with an
empty counter cell, a round carrying the trigger tag and a failing
worksheet append, the error is surfaced and no row is appended, but the
counter cell has already been written (4 new bock rounds) — one store
changed, the other did not.  Second scenario: with counter "2" and a failing
counter-store write, finalization succeeds silently — the row is appended
and no error is surfaced although the consistent counter update (2-1=1) was
lost and the cell still reads "2". -/
theorem C4_counterexample :
    ((handle_final_score ⟨none, []⟩
        ⟨some "Normal", some "Re", some ["A", "B"], none, [], ["Herz-Rundlauf"]⟩
        ["A", "B", "C", "D"] ⟨none, none⟩ "21:00:00" false true).2
        = .error "append failed"
      ∧ (handle_final_score ⟨none, []⟩
          ⟨some "Normal", some "Re", some ["A", "B"], none, [], ["Herz-Rundlauf"]⟩
          ["A", "B", "C", "D"] ⟨none, none⟩ "21:00:00" false true).1.ledger = []
      ∧ (handle_final_score ⟨none, []⟩
          ⟨some "Normal", some "Re", some ["A", "B"], none, [], ["Herz-Rundlauf"]⟩
          ["A", "B", "C", "D"] ⟨none, none⟩ "21:00:00" false true).1.bock
        = some "4")
    ∧ ((handle_final_score ⟨some "2", []⟩
        ⟨some "Normal", some "Re", some ["A", "B"], none, [], []⟩
        ["A", "B", "C", "D"] ⟨none, none⟩ "21:00:00" true false).2
        = .ok ([("A", 2), ("B", 2), ("C", -2), ("D", -2)], true)
      ∧ (handle_final_score ⟨some "2", []⟩
          ⟨some "Normal", some "Re", some ["A", "B"], none, [], []⟩
          ["A", "B", "C", "D"] ⟨none, none⟩ "21:00:00" true false).1.bock
        = some "2"
      ∧ bock_update (get_bock_count (some "2")) [] ≠ get_bock_count (some "2")
      ∧ (handle_final_score ⟨some "2", []⟩
          ⟨some "Normal", some "Re", some ["A", "B"], none, [], []⟩
          ["A", "B", "C", "D"] ⟨none, none⟩ "21:00:00" true false).1.ledger.length
        = 1) :=
  ⟨⟨rfl, rfl, rfl⟩, rfl, rfl, by decide, rfl⟩

/-- C4 (amended): what finalization actually guarantees.  A successful
result implies the append store did not fail and exactly one row was
appended; when the append store fails, an error is surfaced and the ledger
is unchanged — but the counter cell is NOT rolled back (it is written
before the append, see the counterexample); when the counter store fails,
the cell is unchanged in every path while finalization proceeds anyway. -/
theorem C4_amended (st : Store) (data : GameData) (players : List String)
    (rules : Rules) (now : String) (fsb fa : Bool) :
    (∀ scores flag,
        (handle_final_score st data players rules now fsb fa).2
            = .ok (scores, flag) →
        fa = false
        ∧ (handle_final_score st data players rules now fsb fa).1.ledger.length
            = st.ledger.length + 1)
    ∧ (fa = true →
        (∃ e, (handle_final_score st data players rules now fsb fa).2 = .error e)
        ∧ (handle_final_score st data players rules now fsb fa).1.ledger
            = st.ledger)
    ∧ (fsb = true →
        (handle_final_score st data players rules now fsb fa).1.bock = st.bock) := by
  refine ⟨?_, ?_, ?_⟩
  · intro scores flag h
    rcases handle_final_score_spec st data players rules now fsb fa with
      ⟨_, e, he⟩ | ⟨hfa, hlen, _⟩
    · rw [he] at h
      cases h
    · exact ⟨hfa, hlen⟩
  · intro hfa
    rcases handle_final_score_spec st data players rules now fsb fa with
      ⟨hl, he⟩ | ⟨hfa', _, _⟩
    · exact ⟨he, hl⟩
    · rw [hfa] at hfa'
      cases hfa'
  · intro hfsb
    subst hfsb
    exact handle_final_score_bock st data players rules now fa

/-- C4 witness: the amended guarantees at the first counterexample
scenario (failing append). -/
theorem C4_amended_witness :
    true = true
    ∧ (∃ e, (handle_final_score ⟨none, []⟩
        ⟨some "Normal", some "Re", some ["A", "B"], none, [], ["Herz-Rundlauf"]⟩
        ["A", "B", "C", "D"] ⟨none, none⟩ "21:00:00" false true).2 = .error e)
    ∧ (handle_final_score ⟨none, []⟩
        ⟨some "Normal", some "Re", some ["A", "B"], none, [], ["Herz-Rundlauf"]⟩
        ["A", "B", "C", "D"] ⟨none, none⟩ "21:00:00" false true).1.ledger
      = (Store.mk none []).ledger :=
  ⟨rfl,
    ((C4_amended ⟨none, []⟩
        ⟨some "Normal", some "Re", some ["A", "B"], none, [], ["Herz-Rundlauf"]⟩
        ["A", "B", "C", "D"] ⟨none, none⟩ "21:00:00" false true).2.1 rfl).1,
    ((C4_amended ⟨none, []⟩
        ⟨some "Normal", some "Re", some ["A", "B"], none, [], ["Herz-Rundlauf"]⟩
        ["A", "B", "C", "D"] ⟨none, none⟩ "21:00:00" false true).2.1 rfl).2⟩

/-! ## Claim C5 -/

/-- C5: finalizing a Team round whose recorded Team Re does not have exactly
two members (including no team recorded at all) aborts before scoring:
the surfaced result is the validation error and neither the counter cell
nor the worksheet is touched (the session state is discarded by the
handler's early return).  Holds for either failure-injection flag. -/
theorem C5_invalid_team (st : Store) (data : GameData) (players : List String)
    (rules : Rules) (now : String) (fsb fa : Bool)
    (ht : data.type_ = some "Normal")
    (hre : data.re_players = none ∨ (data.re_players.getD []).length ≠ 2) :
    handle_final_score st data players rules now fsb fa
      = (st, .error "Fehler: Team Re wurde nicht korrekt festgelegt.") := by
  obtain ⟨ty, wt, rp, so, anns, ex⟩ := data
  simp only at ht hre
  subst ht
  simp only [handle_final_score]
  rw [if_pos ⟨by trivial, hre⟩]

/-- C5 witness: a Team round with a one-member team is rejected with the
stores untouched. -/
theorem C5_invalid_team_witness :
    (GameData.mk (some "Normal") (some "Re") (some ["A"]) none [] []).type_
        = some "Normal"
    ∧ ((GameData.mk (some "Normal") (some "Re") (some ["A"]) none [] []).re_players = none
        ∨ ((GameData.mk (some "Normal") (some "Re") (some ["A"]) none [] []).re_players.getD []).length ≠ 2)
    ∧ handle_final_score ⟨some "1", [["h"]]⟩
        (GameData.mk (some "Normal") (some "Re") (some ["A"]) none [] [])
        ["A", "B", "C", "D"] ⟨none, none⟩ "22:00:00" false false
      = (⟨some "1", [["h"]]⟩,
          .error "Fehler: Team Re wurde nicht korrekt festgelegt.") :=
  ⟨rfl, by decide,
    C5_invalid_team ⟨some "1", [["h"]]⟩
      (GameData.mk (some "Normal") (some "Re") (some ["A"]) none [] [])
      ["A", "B", "C", "D"] ⟨none, none⟩ "22:00:00" false false rfl (by decide)⟩

/-! ## Claim C6 -/

/-- C6: for every complete Solo round on a duplicate-free roster containing
the soloist: a winning soloist receives +roundPoints*SoloMultiplier and
every other player -roundPoints; a losing soloist inverts all signs; the
deltas sum to sign * roundPoints * (SoloMultiplier - (N - 1)). -/
theorem C6_solo_scoring (players : List String) (soloist w : String)
    (re : Option (List String)) (anns extras : List String) (rules : Rules)
    (bock : Bool) (hnd : players.Nodup) (hmem : soloist ∈ players) :
    calculate_points ⟨some "Solo", some w, re, some soloist, anns, extras⟩
        rules players bock
      = .ok (players.map (fun p =>
          (p, if p = soloist
            then (if w = "Soloist"
              then round_points_of anns extras rules bock
                    * rules.SoloMultiplier.getD 3
              else -(round_points_of anns extras rules bock
                    * rules.SoloMultiplier.getD 3))
            else (if w = "Soloist" then -round_points_of anns extras rules bock
                  else round_points_of anns extras rules bock))))
    ∧ sumValues (players.map (fun p =>
          (p, if p = soloist
            then (if w = "Soloist"
              then round_points_of anns extras rules bock
                    * rules.SoloMultiplier.getD 3
              else -(round_points_of anns extras rules bock
                    * rules.SoloMultiplier.getD 3))
            else (if w = "Soloist" then -round_points_of anns extras rules bock
                  else round_points_of anns extras rules bock))))
      = (if w = "Soloist" then 1 else -1) * round_points_of anns extras rules bock
        * (rules.SoloMultiplier.getD 3 - ((players.length : Int) - 1)) := by
  refine ⟨calculate_points_solo players soloist w re anns extras rules bock hnd hmem,
    ?_⟩
  rw [sumValues_map]
  set rp := round_points_of anns extras rules bock with hrp
  set sm := rules.SoloMultiplier.getD 3 with hsm
  have hcount : players.countP (fun p => decide (p ∈ ([soloist] : List String))) = 1 := by
    have h := @countP_mem_eq_length players [soloist] hnd (by simp)
      (by simpa using hmem)
    simpa using h
  have hfn : ∀ a b : Int, (fun p => if p = soloist then a else b)
      = (fun p => if p ∈ ([soloist] : List String) then a else b) := by
    intro a b
    funext p
    simp
  by_cases hw : w = "Soloist"
  · simp only [hw, eq_self_iff_true, if_true]
    rw [hfn, sum_map_ite players [soloist] (rp * sm) (-rp), hcount]
    push_cast
    ring
  · simp only [if_neg hw]
    rw [hfn, sum_map_ite players [soloist] (-(rp * sm)) rp, hcount]
    push_cast
    ring

/-- C6 witness: the Solo guarantees at roster [A,B,C,D], soloist A winning
with BasePoint 1 and SoloMultiplier 3 (deltas {A:3, B:-1, C:-1, D:-1}). -/
theorem C6_solo_scoring_witness :
    (["A", "B", "C", "D"] : List String).Nodup
    ∧ "A" ∈ (["A", "B", "C", "D"] : List String)
    ∧ (calculate_points ⟨some "Solo", some "Soloist", none, some "A", [], []⟩
          ⟨some 1, some 3⟩ ["A", "B", "C", "D"] false
        = .ok ((["A", "B", "C", "D"] : List String).map (fun p =>
            (p, if p = "A"
              then (if "Soloist" = "Soloist"
                then round_points_of [] [] ⟨some 1, some 3⟩ false
                      * (Rules.mk (some 1) (some 3)).SoloMultiplier.getD 3
                else -(round_points_of [] [] ⟨some 1, some 3⟩ false
                      * (Rules.mk (some 1) (some 3)).SoloMultiplier.getD 3))
              else (if "Soloist" = "Soloist"
                    then -round_points_of [] [] ⟨some 1, some 3⟩ false
                    else round_points_of [] [] ⟨some 1, some 3⟩ false))))
      ∧ sumValues ((["A", "B", "C", "D"] : List String).map (fun p =>
            (p, if p = "A"
              then (if "Soloist" = "Soloist"
                then round_points_of [] [] ⟨some 1, some 3⟩ false
                      * (Rules.mk (some 1) (some 3)).SoloMultiplier.getD 3
                else -(round_points_of [] [] ⟨some 1, some 3⟩ false
                      * (Rules.mk (some 1) (some 3)).SoloMultiplier.getD 3))
              else (if "Soloist" = "Soloist"
                    then -round_points_of [] [] ⟨some 1, some 3⟩ false
                    else round_points_of [] [] ⟨some 1, some 3⟩ false))))
        = (if "Soloist" = "Soloist" then 1 else -1)
          * round_points_of [] [] ⟨some 1, some 3⟩ false
          * ((Rules.mk (some 1) (some 3)).SoloMultiplier.getD 3
              - (((["A", "B", "C", "D"] : List String).length : Int) - 1))) :=
  ⟨by decide, by decide,
    C6_solo_scoring ["A", "B", "C", "D"] "A" "Soloist" none [] []
      ⟨some 1, some 3⟩ false (by decide) (by decide)⟩

/-! ## Claim C7 -/

/-- C7 counterexample: the scorer does NOT reject a declared Team-variant
team without exactly two members — with a one-member team ["A"] on roster
[A,B,C,D] it happily returns the mapping {A:1, B:-1, C:-1, D:-1} instead of
failing. -/
theorem C7_counterexample :
    (calculate_points ⟨some "Normal", some "Re", some ["A"], none, [], []⟩
        ⟨none, none⟩ ["A", "B", "C", "D"] false).toOption
      = some [("A", 1), ("B", -1), ("C", -1), ("D", -1)] := by decide

/-- C7 (amended): the scorer fails (KeyError) whenever the variant, the
winning side (for a recognized variant) or the soloist datum is missing and
then returns no score mapping; but it performs no team-size validation —
a Team round with winner and any declared team list, of whatever length,
yields a score mapping (that check lives in finalization, cf. C5). -/
theorem C7_missing_field_errors (gd : GameData) (rules : Rules)
    (players : List String) (bock : Bool) :
    (gd.type_ = none → (calculate_points gd rules players bock).toOption = none)
    ∧ (gd.type_ = some "Normal" → gd.re_players = none →
        (calculate_points gd rules players bock).toOption = none)
    ∧ (gd.type_ = some "Normal" → gd.winner_team = none →
        (calculate_points gd rules players bock).toOption = none)
    ∧ (gd.type_ = some "Solo" → gd.soloist = none →
        (calculate_points gd rules players bock).toOption = none)
    ∧ (gd.type_ = some "Solo" → gd.winner_team = none →
        (calculate_points gd rules players bock).toOption = none)
    ∧ (∀ (w : String) (re_l : List String),
        gd.type_ = some "Normal" → gd.winner_team = some w →
        gd.re_players = some re_l →
        (calculate_points gd rules players bock).toOption ≠ none) := by
  obtain ⟨ty, wt, rp, so, anns, ex⟩ := gd
  refine ⟨?_, ?_, ?_, ?_, ?_, ?_⟩
  · intro h
    simp only at h
    subst h
    rfl
  · intro h1 h2
    simp only at h1 h2
    subst h1
    subst h2
    rfl
  · intro h1 h2
    simp only at h1 h2
    subst h1
    subst h2
    cases rp with
    | none => rfl
    | some l => rfl
  · intro h1 h2
    simp only at h1 h2
    subst h1
    subst h2
    rfl
  · intro h1 h2
    simp only at h1 h2
    subst h1
    subst h2
    cases so with
    | none => rfl
    | some s => rfl
  · intro w re_l h1 h2 h3
    simp only at h1 h2 h3
    subst h1
    subst h2
    subst h3
    by_cases hw : w = "Re" <;>
      simp [calculate_points, Except.toOption, hw]

/-- C7 witness: a Solo round with no soloist recorded yields no mapping. -/
theorem C7_missing_field_errors_witness :
    (GameData.mk (some "Solo") (some "Others") none none [] []).type_ = some "Solo"
    ∧ (GameData.mk (some "Solo") (some "Others") none none [] []).soloist = none
    ∧ (calculate_points (GameData.mk (some "Solo") (some "Others") none none [] [])
        ⟨none, none⟩ ["A", "B"] false).toOption = none :=
  ⟨rfl, rfl,
    (C7_missing_field_errors (GameData.mk (some "Solo") (some "Others") none none [] [])
      ⟨none, none⟩ ["A", "B"] false).2.2.2.1 rfl rfl⟩

/-! ## Claim C8 -/

/-- C8: starting from the empty selection, any sequence of Team-Re toggles
keeps the selection duplicate-free with at most 2 players; a tap on a
selected player removes them, a tap on an unselected player appends them
only while fewer than 2 are selected and is ignored otherwise; the confirm
button is offered iff exactly 2 players are selected. -/
theorem C8_team_toggle :
    (∀ toggles : List String,
        (toggles.foldl toggle_re []).Nodup
        ∧ (toggles.foldl toggle_re []).length ≤ 2)
    ∧ (∀ (l : List String) (p : String), p ∈ l → toggle_re l p = l.erase p)
    ∧ (∀ (l : List String) (p : String), p ∉ l → l.length < 2 →
        toggle_re l p = l ++ [p])
    ∧ (∀ (l : List String) (p : String), p ∉ l → ¬ l.length < 2 →
        toggle_re l p = l)
    ∧ (∀ l : List String, confirm_offered l = true ↔ l.length = 2) := by
  have step : ∀ (l : List String) (p : String), l.Nodup → l.length ≤ 2 →
      (toggle_re l p).Nodup ∧ (toggle_re l p).length ≤ 2 := by
    intro l p hnd hlen
    unfold toggle_re
    split_ifs with h1 h2
    · exact ⟨hnd.erase p, le_trans (List.erase_sublist p l).length_le hlen⟩
    · constructor
      · simp [List.nodup_append, hnd, h1]
      · simp only [List.length_append, List.length_cons, List.length_nil]
        omega
    · exact ⟨hnd, hlen⟩
  have inv : ∀ (toggles l : List String), l.Nodup → l.length ≤ 2 →
      (toggles.foldl toggle_re l).Nodup
      ∧ (toggles.foldl toggle_re l).length ≤ 2 := by
    intro toggles
    induction toggles with
    | nil =>
      intro l h1 h2
      exact ⟨h1, h2⟩
    | cons a ts ih =>
      intro l h1 h2
      rw [List.foldl_cons]
      exact ih _ (step l a h1 h2).1 (step l a h1 h2).2
  refine ⟨fun ts => inv ts [] (by simp) (by simp), ?_, ?_, ?_, ?_⟩
  · intro l p hp
    simp [toggle_re, hp]
  · intro l p hp hlen
    simp [toggle_re, hp, hlen]
  · intro l p hp hlen
    simp [toggle_re, hp, hlen]
  · intro l
    simp [confirm_offered]

/-- C8 witness: toggling A, B, then A again leaves the duplicate-free
selection [B]; removing a selected player is `erase`; confirm appears for a
two-player selection. -/
theorem C8_team_toggle_witness :
    ((["A", "B", "A"] : List String).foldl toggle_re []).Nodup
    ∧ ((["A", "B", "A"] : List String).foldl toggle_re []).length ≤ 2
    ∧ "A" ∈ (["A", "B"] : List String)
    ∧ toggle_re ["A", "B"] "A" = (["A", "B"] : List String).erase "A"
    ∧ (confirm_offered ["A", "B"] = true ↔ (["A", "B"] : List String).length = 2) :=
  ⟨(C8_team_toggle.1 ["A", "B", "A"]).1,
    (C8_team_toggle.1 ["A", "B", "A"]).2,
    by decide,
    C8_team_toggle.2.1 ["A", "B"] "A" (by decide),
    C8_team_toggle.2.2.2.2 ["A", "B"]⟩

/-! ## Claim C9 -/

/-- C9 counterexample: the winner step does NOT clear the special-event
accumulation — with a stale `extra_points` of ["Fuchs"] in the session,
processing the winner input leaves it in place, so the two accumulations
are not both empty right after the winner step. -/
theorem C9_counterexample :
    (handle_winner_selection
        ⟨some "Normal", none, some ["A", "B"], none, ["Re"], ["Fuchs"]⟩ "Re").extra_points
      ≠ ([] : List String) := by decide

/-- C9 (amended): the winner step stores the winner and clears only the
announcement accumulation, leaving `extra_points` untouched; the special
events are cleared one step later, when announcement collection is
finished, so both accumulations are empty when special-event collection
starts. -/
theorem C9_winner_step (data : GameData) (winner : String) :
    (handle_winner_selection data winner).winner_team = some winner
    ∧ (handle_winner_selection data winner).announcements = []
    ∧ (handle_winner_selection data winner).extra_points = data.extra_points
    ∧ (handle_announcement_done (handle_winner_selection data winner)).announcements
        = []
    ∧ (handle_announcement_done (handle_winner_selection data winner)).extra_points
        = [] :=
  ⟨rfl, rfl, rfl, rfl, rfl⟩

/-! ## Claim C10 -/

/-- C10: undo removes exactly the last row of today's worksheet (and only
then reports success); with at most the header present nothing changes; in
every case the bock counter cell is untouched — undoing a bonus-consuming
or trigger-carrying round does not restore the counter. -/
theorem C10_undo_frame (st : Store) :
    (cmd_undo st).1.bock = st.bock
    ∧ (st.ledger.length ≤ 1 → cmd_undo st = (st, false))
    ∧ (1 < st.ledger.length →
        (cmd_undo st).2 = true
        ∧ (cmd_undo st).1.ledger = st.ledger.dropLast
        ∧ (cmd_undo st).1.ledger.length + 1 = st.ledger.length) := by
  by_cases h : st.ledger.length ≤ 1
  · exact ⟨by simp [cmd_undo, h], fun _ => by simp [cmd_undo, h],
      fun h2 => absurd h2 (by omega)⟩
  · refine ⟨by simp [cmd_undo, h], fun h1 => absurd h1 h, fun h2 => ⟨?_, ?_, ?_⟩⟩
    · simp [cmd_undo, h]
    · simp [cmd_undo, h]
    · simp only [cmd_undo, if_neg h, List.length_dropLast]
      omega

/-- C10 witness: undoing on a sheet with a header and two data rows deletes
exactly the last row and leaves the counter cell "3" alone. -/
theorem C10_undo_frame_witness :
    (cmd_undo ⟨some "3", [["h"], ["r1"], ["r2"]]⟩).1.bock
        = (Store.mk (some "3") [["h"], ["r1"], ["r2"]]).bock
    ∧ 1 < (Store.mk (some "3") [["h"], ["r1"], ["r2"]]).ledger.length
    ∧ (cmd_undo ⟨some "3", [["h"], ["r1"], ["r2"]]⟩).2 = true
    ∧ (cmd_undo ⟨some "3", [["h"], ["r1"], ["r2"]]⟩).1.ledger
        = (Store.mk (some "3") [["h"], ["r1"], ["r2"]]).ledger.dropLast
    ∧ (cmd_undo ⟨some "3", [["h"], ["r1"], ["r2"]]⟩).1.ledger.length + 1
        = (Store.mk (some "3") [["h"], ["r1"], ["r2"]]).ledger.length :=
  ⟨(C10_undo_frame ⟨some "3", [["h"], ["r1"], ["r2"]]⟩).1,
    by decide,
    ((C10_undo_frame ⟨some "3", [["h"], ["r1"], ["r2"]]⟩).2.2 (by decide)).1,
    ((C10_undo_frame ⟨some "3", [["h"], ["r1"], ["r2"]]⟩).2.2 (by decide)).2.1,
    ((C10_undo_frame ⟨some "3", [["h"], ["r1"], ["r2"]]⟩).2.2 (by decide)).2.2⟩
